import Mathlib

/-!
# SimpleLang compiler — shallow embedding and verification

This file embeds the SimpleLang source-to-source compiler (lexer tokens,
AST, recursive-descent parser, semantic analyzer, Python code generator)
in Lean 4 and proves or refutes the specification claims about it.

The embedding follows the Python sources:
  * `compiler/lexer/token.py`      — `TokenType`, `Token`
  * `compiler/lexer/lexer.py`      — keyword table (as data, for the
                                      resolution claims)
  * `compiler/parser/ast_nodes.py` — AST node classes
  * `compiler/parser/parser.py`    — `Parser`
  * `compiler/semantic/analyzer.py`— `SemanticAnalyzer`, `SymbolTable`
  * `compiler/codegen/generator.py`— `CodeGenerator`

The repository's `token.py` lacks the members `FOR`, `FUNCTION`, `RETURN`
and its `ast_nodes.py` lacks the classes `ForStatement`,
`FunctionDeclaration`, `ReturnStatement`, `ArrayLiteral`, `ArrayAccess`,
`FunctionCall`, although the lexer, parser, analyzer, code generator and
the test suite all reference them.  Where a definition is missing from the
sources it is modelled from the spec and marked `Modelled from the spec:`
in its doc comment; the facts about what the shipped files do and do not
define are recorded separately as explicit name lists transcribed from the
files themselves.
-/

namespace SimpleLang

set_option maxHeartbeats 2000000

/-- Single-quote character (U+0027), used to build error messages that
quote names the way the Python sources do. -/
def sq : String := (Char.ofNat 39).toString

/-! ## Tokens (`compiler/lexer/token.py`) -/

/-- Token kinds.  Members `INT` … `EOF` are transcribed from the
`TokenType` enum in `token.py`.  `FOR`, `FUNCTION`, `RETURN` are
*Modelled from the spec:* the spec lists `for`, `function`, `return`
among the keywords and `token.py` as shipped does not define these
members, although `lexer.py` and `parser.py` reference them. -/
inductive TokenType
  | INT | BOOL | PRINT | IF | ELSE | WHILE | TRUE | FALSE
  | IDENTIFIER | NUMBER
  | PLUS | MINUS | MULTIPLY | DIVIDE | MODULO | ASSIGN
  | EQ | NE | LT | LE | GT | GE
  | AND | OR | NOT
  | SEMICOLON | LPAREN | RPAREN | LBRACE | RBRACE
  | LBRACKET | RBRACKET | COMMA
  | EOF
  | FOR | FUNCTION | RETURN
  deriving DecidableEq, Repr

/-- Python's `token.type.name` for the transcribed members (used in
parser error messages). -/
def TokenType.name : TokenType → String
  | .INT => "INT" | .BOOL => "BOOL" | .PRINT => "PRINT" | .IF => "IF"
  | .ELSE => "ELSE" | .WHILE => "WHILE" | .TRUE => "TRUE" | .FALSE => "FALSE"
  | .IDENTIFIER => "IDENTIFIER" | .NUMBER => "NUMBER"
  | .PLUS => "PLUS" | .MINUS => "MINUS" | .MULTIPLY => "MULTIPLY"
  | .DIVIDE => "DIVIDE" | .MODULO => "MODULO" | .ASSIGN => "ASSIGN"
  | .EQ => "EQ" | .NE => "NE" | .LT => "LT" | .LE => "LE"
  | .GT => "GT" | .GE => "GE"
  | .AND => "AND" | .OR => "OR" | .NOT => "NOT"
  | .SEMICOLON => "SEMICOLON" | .LPAREN => "LPAREN" | .RPAREN => "RPAREN"
  | .LBRACE => "LBRACE" | .RBRACE => "RBRACE"
  | .LBRACKET => "LBRACKET" | .RBRACKET => "RBRACKET" | .COMMA => "COMMA"
  | .EOF => "EOF"
  | .FOR => "FOR" | .FUNCTION => "FUNCTION" | .RETURN => "RETURN"

/-- A token's `value` field: Python stores an `int` for `NUMBER` tokens,
a `str` for identifiers / keywords / operators, `None` for `EOF`. -/
inductive TokenValue
  | int (n : Nat)
  | str (s : String)
  | none
  deriving DecidableEq, Repr

/-- `Token` dataclass from `token.py`: `type`, `value`, `line`, `column`. -/
structure Token where
  type : TokenType
  value : TokenValue
  line : Nat
  column : Nat
  deriving DecidableEq, Repr

/-- The string payload of a token value (lexer invariant: identifier,
keyword and operator tokens carry strings; the default is never reached
on lexer-produced input). -/
def TokenValue.asStr : TokenValue → String
  | .str s => s
  | _ => ""

/-- The integer payload of a token value (lexer invariant: `NUMBER`
tokens carry ints; the default is never reached on lexer-produced
input). -/
def TokenValue.asNat : TokenValue → Nat
  | .int n => n
  | _ => 0

/-! ## Shipped-file name inventories (for the import-resolution claim)

These lists are transcribed verbatim from the repository files; they are
data about what the files textually define and reference. -/

/-- The members of the `TokenType` enum exactly as defined in the shipped
`compiler/lexer/token.py` (lines 14–59). -/
def tokenTypeMembers : List String :=
  ["INT", "BOOL", "PRINT", "IF", "ELSE", "WHILE", "TRUE", "FALSE",
   "IDENTIFIER", "NUMBER",
   "PLUS", "MINUS", "MULTIPLY", "DIVIDE", "MODULO", "ASSIGN",
   "EQ", "NE", "LT", "LE", "GT", "GE",
   "AND", "OR", "NOT",
   "SEMICOLON", "LPAREN", "RPAREN", "LBRACE", "RBRACE",
   "LBRACKET", "RBRACKET", "COMMA",
   "EOF"]

/-- The `KEYWORDS` table of `compiler/lexer/lexer.py` (lines 24–36):
each keyword string mapped to the name of the `TokenType` member the
lexer references for it. -/
def lexerKeywords : List (String × String) :=
  [("int", "INT"), ("bool", "BOOL"), ("print", "PRINT"),
   ("if", "IF"), ("else", "ELSE"), ("while", "WHILE"),
   ("for", "FOR"), ("return", "RETURN"), ("function", "FUNCTION"),
   ("true", "TRUE"), ("false", "FALSE")]

/-- The classes defined in the shipped `compiler/parser/ast_nodes.py`. -/
def astNodeClasses : List String :=
  ["ASTNode", "Program", "Statement", "Declaration", "Assignment",
   "PrintStatement", "IfStatement", "WhileStatement",
   "Expression", "BinaryOp", "Number", "Identifier", "Boolean", "UnaryOp"]

/-- The names `compiler/parser/parser.py` imports from `.ast_nodes`
(lines 9–14). -/
def parserAstImports : List String :=
  ["Program", "Statement", "Declaration", "Assignment", "PrintStatement",
   "IfStatement", "WhileStatement", "ForStatement", "FunctionDeclaration",
   "ReturnStatement", "Expression", "BinaryOp", "UnaryOp", "Number",
   "Identifier", "Boolean", "ArrayLiteral", "ArrayAccess", "FunctionCall"]

/-! ## AST (`compiler/parser/ast_nodes.py`) -/

/-- Expression nodes.  `binaryOp`, `number`, `identifier`, `boolean`,
`unaryOp` are transcribed from `ast_nodes.py`.  `arrayLiteral`,
`arrayAccess`, `functionCall` are *Modelled from the spec:* the listed
expression variants `ArrayLiteral{elements}`, `ArrayAccess{array_expr,
index_expr}`, `FunctionCall{name, arguments}` are missing from the
shipped `ast_nodes.py` although parser, analyzer and generator construct
and dispatch on them.  `otherNode` models a Python object of any class
outside this set reaching the `isinstance` dispatch chains (which are
open-ended in Python). -/
inductive Expr
  | binaryOp (left : Expr) (operator : String) (right : Expr)
      (line column : Nat)
  | number (value : Nat) (line column : Nat)
  | identifier (name : String) (line column : Nat)
  | boolean (value : Bool) (line column : Nat)
  | unaryOp (operator : String) (operand : Expr) (line column : Nat)
  | arrayLiteral (elements : List Expr) (line column : Nat)
  | arrayAccess (array : Expr) (index : Expr) (line column : Nat)
  | functionCall (name : String) (arguments : List Expr) (line column : Nat)
  | otherNode

/-- Statement nodes.  `declaration`, `assignment`, `printStmt`, `ifStmt`,
`whileStmt` are transcribed from `ast_nodes.py`; in particular
`assignment` has exactly the fields `name`, `value`, `line`, `column` of
the shipped `Assignment` dataclass — it has **no** `index` field.
`forStmt`, `functionDecl`, `returnStmt` are *Modelled from the spec:*
the variants `ForStatement{optional init, optional condition, optional
update, body}`, `FunctionDeclaration{name, params, return_type, body}`
and `ReturnStatement{optional expr}` are missing from the shipped
`ast_nodes.py` although parser, analyzer and generator construct and
dispatch on them.  `otherNode` models any object of a class outside this
set reaching the `isinstance` dispatch chains. -/
inductive Stmt
  | declaration (varType : String) (name : String) (value : Expr)
      (line column : Nat)
  | assignment (name : String) (value : Expr) (line column : Nat)
  | printStmt (expression : Expr) (line column : Nat)
  | ifStmt (condition : Expr) (thenBlock : List Stmt)
      (elseBlock : Option (List Stmt)) (line column : Nat)
  | whileStmt (condition : Expr) (body : List Stmt) (line column : Nat)
  | forStmt (init : Option Stmt) (condition : Option Expr)
      (update : Option Stmt) (body : List Stmt) (line column : Nat)
  | functionDecl (name : String) (params : List (String × String))
      (returnType : String) (body : List Stmt) (line column : Nat)
  | returnStmt (expression : Option Expr) (line column : Nat)
  | otherNode

/-- `Program` node: an ordered list of top-level statements. -/
structure Program where
  statements : List Stmt

/-! ## Errors

The exceptions the pipeline can raise.  `lexerError`, `parserError` and
`semanticError` are the three classes defined by the sources.
`attributeError` models Python's built-in `AttributeError`: it is raised
by `SemanticAnalyzer.visit_assignment`, whose first statement reads
`node.index` while the shipped `Assignment` dataclass has no `index`
field.  `indexError` models Python's built-in `IndexError` raised by
`tokens[-1]` / `tokens[pos]` on an out-of-range list access. -/
inductive Err
  | lexerError (message : String) (line column : Nat)
  | parserError (message : String) (token : Token)
  | semanticError (message : String) (line column : Nat)
  | attributeError (message : String)
  | indexError
  | fuelExhausted
  deriving DecidableEq, Repr

/-- Discriminates the analyzer's own error class from Python built-in
exceptions escaping it. -/
def Err.isSemanticError : Err → Bool
  | .semanticError _ _ _ => true
  | _ => false

/-! ## Code generator (`compiler/codegen/generator.py`)

The generator mutates only an append-only output list and an indentation
counter that every visit method restores, so each statement visitor is a
pure function from the node and the current indentation level to the
lines it appends, and each expression visitor a pure function to the
string it returns.  No visitor raises. -/

/-- `'    ' * indent_level` — the indentation prefix of `emit`. -/
def indentStr (level : Nat) : String :=
  String.join (List.replicate level "    ")

/-- The `operator_map` of `visit_binary_op` (`'/' → '//'`, `'&&' → 'and'`,
`'||' → 'or'`), with `operator_map.get(op, op)` defaulting to the
operator itself. -/
def binOpMap (op : String) : String :=
  if op = "/" then "//"
  else if op = "&&" then "and"
  else if op = "||" then "or"
  else op

/-- The `operator_map` of `visit_unary_op` (`'!' → 'not'`, `'-' → '-'`),
with `operator_map.get(op, op)` defaulting to the operator itself. -/
def unOpMap (op : String) : String :=
  if op = "!" then "not" else op

/-- `get_python_type`: `type_map.get(t, t)` over `{'int': 'int',
'bool': 'bool'}`. -/
def getPythonType (t : String) : String :=
  if t = "int" then "int" else if t = "bool" then "bool" else t

mutual

/-- `CodeGenerator.visit_expression` and the per-kind expression
visitors: returns the generated Python expression text.  The final
`return ""` of `visit_expression` (reached by a node of no known class)
is the `otherNode` arm. -/
def genExpr : Expr → String
  | .number v _ _ => toString v
  | .boolean v _ _ => if v then "True" else "False"
  | .identifier n _ _ => n
  | .unaryOp op e _ _ => "(" ++ unOpMap op ++ " " ++ genExpr e ++ ")"
  | .binaryOp l op r _ _ =>
      "(" ++ genExpr l ++ " " ++ binOpMap op ++ " " ++ genExpr r ++ ")"
  | .arrayLiteral es _ _ =>
      "[" ++ String.intercalate ", " (genExprList es) ++ "]"
  | .arrayAccess a i _ _ => genExpr a ++ "[" ++ genExpr i ++ "]"
  | .functionCall n args _ _ =>
      n ++ "(" ++ String.intercalate ", " (genExprList args) ++ ")"
  | .otherNode => ""

/-- The element-wise expression rendering used by array literals and
call argument lists. -/
def genExprList : List Expr → List String
  | [] => []
  | e :: es => genExpr e :: genExprList es

end

/-- `', '.join(f"{name}: {type}" ...)` over a parameter list. -/
def genParams (params : List (String × String)) : String :=
  String.intercalate ", "
    (params.map (fun p => p.2 ++ ": " ++ getPythonType p.1))

mutual

/-- `CodeGenerator.visit_statement` and the per-kind statement visitors:
the lines appended to the output for one statement at indentation
`level`.  A node of no known class (`otherNode`) falls off the end of
the `isinstance` chain and appends nothing.  Python truthiness is
modelled where the source tests object truthiness: `if node.else_block:`
and `if node.body:` are false for `None`/absent *and* for an empty
list; `if node.expression:` / `if node.init:` etc. test optional object
presence. -/
def genStmt : Stmt → Nat → List String
  | .declaration varType name value _ _, level =>
      [indentStr level ++ name ++ ": " ++ getPythonType varType ++ " = "
        ++ genExpr value]
  | .assignment name value _ _, level =>
      [indentStr level ++ name ++ " = " ++ genExpr value]
  | .printStmt e _ _, level =>
      [indentStr level ++ "print(" ++ genExpr e ++ ")"]
  | .ifStmt cond thenBlock elseBlock _ _, level =>
      (indentStr level ++ "if " ++ genExpr cond ++ ":")
        :: genStmtList thenBlock (level + 1)
        ++ (match elseBlock with
            | some els =>
                if els.isEmpty then []
                else (indentStr level ++ "else:") :: genStmtList els (level + 1)
            | none => [])
  | .whileStmt cond body _ _, level =>
      (indentStr level ++ "while " ++ genExpr cond ++ ":")
        :: genStmtList body (level + 1)
  | .forStmt init cond update body _ _, level =>
      (match init with
       | some i => genStmt i level
       | none => [])
      ++ [indentStr level ++ "while "
            ++ (match cond with
                | some c => genExpr c
                | none => "True") ++ ":"]
      ++ genStmtList body (level + 1)
      ++ (match update with
          | some u => genStmt u (level + 1)
          | none => [])
  | .functionDecl name params returnType body _ _, level =>
      (indentStr level ++ "def " ++ name ++ "(" ++ genParams params ++ ")"
          ++ (if returnType = "" then ""
              else " -> " ++ getPythonType returnType) ++ ":")
        :: (if body.isEmpty then [indentStr (level + 1) ++ "pass"]
            else genStmtList body (level + 1))
        ++ [indentStr level]
  | .returnStmt e _ _, level =>
      match e with
      | some e => [indentStr level ++ "return " ++ genExpr e]
      | none => [indentStr level ++ "return"]
  | .otherNode, _ => []

/-- Sequential statement generation (the `for stmt in …: visit` loops). -/
def genStmtList : List Stmt → Nat → List String
  | [], _ => []
  | s :: ss, level => genStmt s level ++ genStmtList ss level

end

/-- `CodeGenerator.generate`: visit the program at indentation 0 and
join the collected lines with newlines. -/
def generate (p : Program) : String :=
  String.intercalate "\n" (genStmtList p.statements 0)

/-! ## Symbol table and semantic analyzer (`compiler/semantic/analyzer.py`)

The symbol table is a Python dict from name to type string; it is
modelled as an insertion-ordered association list, matching dict
semantics for the operations the analyzer uses (membership, lookup,
insert-new, overwrite, copy, wholesale restore).  The analyzer mutates
only this table, so each statement visitor is a function from node and
table to `Except Err` of the resulting table, and each expression
visitor (which never mutates the table) to `Except Err` of the type
string it returns. -/

/-- Symbol table contents: `self.symbols`, a dict name → type string. -/
abbrev SymTable := List (String × String)

/-- `name in self.symbols`. -/
def SymTable.hasName (st : SymTable) (name : String) : Bool :=
  st.any (fun p => p.1 = name)

/-- `SymbolTable.declare`: error if the name is already present, else
insert the binding (a new dict key is appended in insertion order). -/
def SymTable.declare (st : SymTable) (name varType : String)
    (line column : Nat) : Except Err SymTable :=
  if st.hasName name then
    .error (.semanticError
      ("Variable " ++ sq ++ name ++ sq ++ " already declared") line column)
  else
    .ok (st ++ [(name, varType)])

/-- `SymbolTable.lookup`: error if the name is absent, else its type. -/
def SymTable.lookupName (st : SymTable) (name : String)
    (line column : Nat) : Except Err String :=
  match st.find? (fun p => p.1 = name) with
  | some p => .ok p.2
  | none => .error (.semanticError
      ("Undefined variable " ++ sq ++ name ++ sq) line column)

/-- `self.symbol_table.symbols[param_name] = param_type` — plain dict
assignment: overwrite in place if the key exists, else append. -/
def SymTable.setName (st : SymTable) (name varType : String) : SymTable :=
  if st.hasName name then
    st.map (fun p => if p.1 = name then (name, varType) else p)
  else
    st ++ [(name, varType)]

/-- The parameter-binding loop of `visit_function_declaration`:
`for param_type, param_name in node.params: symbols[param_name] = param_type`. -/
def SymTable.bindParams (st : SymTable)
    (params : List (String × String)) : SymTable :=
  match params with
  | [] => st
  | (paramType, paramName) :: rest =>
      (st.setName paramName paramType).bindParams rest

mutual

/-- `SemanticAnalyzer.visit_expression` and the per-kind expression
visitors: the type string of the expression, or the first error raised.
The final `else` of `visit_expression` (a node of no known class) raises
`SemanticError("Unknown expression type: …", 0, 0)`. -/
def anaExpr : Expr → SymTable → Except Err String
  | .number _ _ _, _ => .ok "int"
  | .boolean _ _ _, _ => .ok "bool"
  | .identifier name line column, st => st.lookupName name line column
  | .unaryOp op operand line column, st => do
      let operandType ← anaExpr operand st
      if op = "!" then
        if operandType ≠ "bool" then
          .error (.semanticError
            ("Unary operator " ++ sq ++ "!" ++ sq
              ++ " requires bool operand, got " ++ operandType) line column)
        else .ok "bool"
      else if op = "-" then
        if operandType ≠ "int" then
          .error (.semanticError
            ("Unary operator " ++ sq ++ "-" ++ sq
              ++ " requires int operand, got " ++ operandType) line column)
        else .ok "int"
      else
        .error (.semanticError ("Unknown unary operator: " ++ op) line column)
  | .binaryOp left op right line column, st => do
      let leftType ← anaExpr left st
      let rightType ← anaExpr right st
      if op = "+" ∨ op = "-" ∨ op = "*" ∨ op = "/" ∨ op = "%" then
        if leftType ≠ "int" ∨ rightType ≠ "int" then
          .error (.semanticError
            ("Arithmetic operator " ++ sq ++ op ++ sq
              ++ " requires int operands") line column)
        else .ok "int"
      else if op = "<" ∨ op = "<=" ∨ op = ">" ∨ op = ">=" then
        if leftType ≠ "int" ∨ rightType ≠ "int" then
          .error (.semanticError
            ("Comparison operator " ++ sq ++ op ++ sq
              ++ " requires int operands") line column)
        else .ok "bool"
      else if op = "==" ∨ op = "!=" then
        if leftType ≠ rightType then
          .error (.semanticError
            ("Equality operator " ++ sq ++ op ++ sq
              ++ " requires operands of same type") line column)
        else .ok "bool"
      else if op = "&&" ∨ op = "||" then
        if leftType ≠ "bool" ∨ rightType ≠ "bool" then
          .error (.semanticError
            ("Logical operator " ++ sq ++ op ++ sq
              ++ " requires bool operands") line column)
        else .ok "bool"
      else
        .error (.semanticError ("Unknown binary operator: " ++ op) line column)
  | .arrayLiteral elements _ _, st => do
      anaExprList elements st
      .ok "int"
  | .arrayAccess array index _ _, st => do
      let _ ← anaExpr array st
      let _ ← anaExpr index st
      .ok "int"
  | .functionCall _ arguments _ _, st => do
      anaExprList arguments st
      .ok "int"
  | .otherNode, _ =>
      .error (.semanticError "Unknown expression type: otherNode" 0 0)

/-- Element-wise checking of array-literal elements and call
arguments; the computed types are discarded, matching the source. -/
def anaExprList : List Expr → SymTable → Except Err Unit
  | [], _ => .ok ()
  | e :: es, st => do
      let _ ← anaExpr e st
      anaExprList es st

end

mutual

/-- `SemanticAnalyzer.visit_statement` and the per-kind statement
visitors: the symbol table after the statement, or the first raised
error.

`visit_assignment` (analyzer.py lines 108–144) begins with
`if node.index is not None:` — but the shipped `Assignment` dataclass
(ast_nodes.py lines 47–56) has only `name`, `value`, `line`, `column`
fields, so this attribute access raises Python `AttributeError` before
any semantic checking happens, on every assignment, plain or indexed.

A node of no known class (`otherNode`) reaches the final `else` and
raises `SemanticError("Unknown statement type: …", 0, 0)`. -/
def anaStmt : Stmt → SymTable → Except Err SymTable
  | .declaration varType name value line column, st => do
      let exprType ← anaExpr value st
      if varType ≠ exprType then
        .error (.semanticError
          ("Type mismatch: cannot assign " ++ exprType ++ " to " ++ varType)
          line column)
      else
        st.declare name varType line column
  | .assignment _ _ _ _, _ =>
      .error (.attributeError
        "Assignment object has no attribute index")
  | .printStmt e _ _, st => do
      let _ ← anaExpr e st
      .ok st
  | .ifStmt cond thenBlock elseBlock line column, st => do
      let condType ← anaExpr cond st
      if condType ≠ "bool" then
        .error (.semanticError
          ("If condition must be bool, got " ++ condType) line column)
      else do
        let st ← anaStmtList thenBlock st
        -- `if node.else_block:` — falsy for None and for an empty list;
        -- visiting an empty list leaves the table unchanged either way
        match elseBlock with
        | some els => anaStmtList els st
        | none => .ok st
  | .whileStmt cond body line column, st => do
      let condType ← anaExpr cond st
      if condType ≠ "bool" then
        .error (.semanticError
          ("While condition must be bool, got " ++ condType) line column)
      else
        anaStmtList body st
  | .forStmt init cond update body _ _, st => do
      let st ← match init with
        | some i => anaStmt i st
        | none => .ok st
      match cond with
      | some c => do
          let _ ← anaExpr c st
          pure ()
      | none => pure ()
      let st ← match update with
        | some u => anaStmt u st
        | none => .ok st
      anaStmtList body st
  | .functionDecl name params returnType body line column, st => do
      -- declare the function name, then snapshot, overlay parameters,
      -- check the body, and restore the snapshot
      let declared ← st.declare name returnType line column
      let saved := declared
      let overlaid := declared.bindParams params
      let _ ← anaStmtList body overlaid
      .ok saved
  | .returnStmt e _ _, st => do
      match e with
      | some e => do
          let _ ← anaExpr e st
          .ok st
      | none => .ok st
  | .otherNode, _ =>
      .error (.semanticError "Unknown statement type: otherNode" 0 0)

/-- Sequential statement analysis (the `for stmt in …: visit` loops). -/
def anaStmtList : List Stmt → SymTable → Except Err SymTable
  | [], st => .ok st
  | s :: ss, st => do
      let st ← anaStmt s st
      anaStmtList ss st

end

/-- `SemanticAnalyzer.analyze` starting from the fresh empty symbol
table of a new `SemanticAnalyzer()`; exposes the final table. -/
def analyze (p : Program) : Except Err SymTable :=
  anaStmtList p.statements []

/-! ## Parser (`compiler/parser/parser.py`)

The parser's state is the immutable token list plus a cursor `pos`; each
parsing method is a function from the cursor to `Except Err` of its
result and the new cursor.  `Parser.current_token` and
`Parser.peek_token` read `self.tokens[-1]` when the position runs past
the end, which on an *empty* token list would raise `IndexError`; that
possibility is kept visible as an `Option` result in the primitives
(`none` = `IndexError`).  The recursive-descent functions take a fuel
parameter for termination; fuel exhaustion is a distinguished error that
a sufficiently large fuel never produces on a given input. -/

/-- `Parser.current_token`: the token at `pos`, or the last token when
`pos` runs past the end; `none` models the `IndexError` of `tokens[-1]`
on an empty list. -/
def currentTokenAt (tokens : List Token) (pos : Nat) : Option Token :=
  if tokens.length ≤ pos then tokens.getLast? else tokens[pos]?

/-- `Parser.peek_token`: like `current_token` at `pos + offset`. -/
def peekTokenAt (tokens : List Token) (pos offset : Nat) : Option Token :=
  if tokens.length ≤ pos + offset then tokens.getLast? else
    tokens[pos + offset]?

/-- The cursor movement of `Parser.advance`: step forward unless already
at the last token (never advances past EOF). -/
def advancePos (tokens : List Token) (pos : Nat) : Nat :=
  if pos < tokens.length - 1 then pos + 1 else pos

/-- `current_token()` inside a parsing method, with the `IndexError`
case surfaced as an error. -/
def getCur (tokens : List Token) (pos : Nat) : Except Err Token :=
  match currentTokenAt tokens pos with
  | some t => .ok t
  | none => .error .indexError

/-- `Parser.advance`: returns the current token and the new cursor. -/
def pAdvance (tokens : List Token) (pos : Nat) : Except Err (Token × Nat) := do
  let t ← getCur tokens pos
  .ok (t, advancePos tokens pos)

/-- `Parser.expect`: raise `ParserError` on a kind mismatch, else
consume and return the token. -/
def pExpect (tokens : List Token) (pos : Nat) (tt : TokenType) :
    Except Err (Token × Nat) := do
  let t ← getCur tokens pos
  if t.type ≠ tt then
    .error (.parserError ("Expected " ++ tt.name ++ ", got " ++ t.type.name) t)
  else
    pAdvance tokens pos

mutual

/-- `Parser.parse_expression`: entry point, delegates to logical-or. -/
def parseExpression : Nat → List Token → Nat → Except Err (Expr × Nat)
  | 0, _, _ => .error .fuelExhausted
  | fuel + 1, tokens, pos => parseLogicalOr fuel tokens pos

termination_by structural fuel _ _ => fuel

/-- `Parser.parse_logical_or`: one logical-and, then the `||` loop. -/
def parseLogicalOr : Nat → List Token → Nat → Except Err (Expr × Nat)
  | 0, _, _ => .error .fuelExhausted
  | fuel + 1, tokens, pos => do
      let (left, pos) ← parseLogicalAnd fuel tokens pos
      orLoop fuel tokens pos left

termination_by structural fuel _ _ => fuel

/-- The `while current is OR` loop of `parse_logical_or` (left fold). -/
def orLoop : Nat → List Token → Nat → Expr → Except Err (Expr × Nat)
  | 0, _, _, _ => .error .fuelExhausted
  | fuel + 1, tokens, pos, left => do
      let cur ← getCur tokens pos
      if cur.type = .OR then do
        let (opTok, pos) ← pAdvance tokens pos
        let (right, pos) ← parseLogicalAnd fuel tokens pos
        orLoop fuel tokens pos
          (.binaryOp left opTok.value.asStr right opTok.line opTok.column)
      else
        .ok (left, pos)

termination_by structural fuel _ _ _ => fuel

/-- `Parser.parse_logical_and`: one comparison, then the `&&` loop. -/
def parseLogicalAnd : Nat → List Token → Nat → Except Err (Expr × Nat)
  | 0, _, _ => .error .fuelExhausted
  | fuel + 1, tokens, pos => do
      let (left, pos) ← parseComparison fuel tokens pos
      andLoop fuel tokens pos left

termination_by structural fuel _ _ => fuel

/-- The `while current is AND` loop of `parse_logical_and`. -/
def andLoop : Nat → List Token → Nat → Expr → Except Err (Expr × Nat)
  | 0, _, _, _ => .error .fuelExhausted
  | fuel + 1, tokens, pos, left => do
      let cur ← getCur tokens pos
      if cur.type = .AND then do
        let (opTok, pos) ← pAdvance tokens pos
        let (right, pos) ← parseComparison fuel tokens pos
        andLoop fuel tokens pos
          (.binaryOp left opTok.value.asStr right opTok.line opTok.column)
      else
        .ok (left, pos)

termination_by structural fuel _ _ _ => fuel

/-- `Parser.parse_comparison`: one arithmetic, then the comparison
operator loop. -/
def parseComparison : Nat → List Token → Nat → Except Err (Expr × Nat)
  | 0, _, _ => .error .fuelExhausted
  | fuel + 1, tokens, pos => do
      let (left, pos) ← parseArithmetic fuel tokens pos
      compLoop fuel tokens pos left

termination_by structural fuel _ _ => fuel

/-- The `while current in (EQ, NE, LT, LE, GT, GE)` loop of
`parse_comparison`. -/
def compLoop : Nat → List Token → Nat → Expr → Except Err (Expr × Nat)
  | 0, _, _, _ => .error .fuelExhausted
  | fuel + 1, tokens, pos, left => do
      let cur ← getCur tokens pos
      if cur.type = .EQ ∨ cur.type = .NE ∨ cur.type = .LT
          ∨ cur.type = .LE ∨ cur.type = .GT ∨ cur.type = .GE then do
        let (opTok, pos) ← pAdvance tokens pos
        let (right, pos) ← parseArithmetic fuel tokens pos
        compLoop fuel tokens pos
          (.binaryOp left opTok.value.asStr right opTok.line opTok.column)
      else
        .ok (left, pos)

termination_by structural fuel _ _ _ => fuel

/-- `Parser.parse_arithmetic`: one term, then the `+`/`-` loop
(left-associative addition and subtraction). -/
def parseArithmetic : Nat → List Token → Nat → Except Err (Expr × Nat)
  | 0, _, _ => .error .fuelExhausted
  | fuel + 1, tokens, pos => do
      let (left, pos) ← parseTerm fuel tokens pos
      addLoop fuel tokens pos left

termination_by structural fuel _ _ => fuel

/-- The `while current in (PLUS, MINUS)` loop of `parse_arithmetic`. -/
def addLoop : Nat → List Token → Nat → Expr → Except Err (Expr × Nat)
  | 0, _, _, _ => .error .fuelExhausted
  | fuel + 1, tokens, pos, left => do
      let cur ← getCur tokens pos
      if cur.type = .PLUS ∨ cur.type = .MINUS then do
        let (opTok, pos) ← pAdvance tokens pos
        let (right, pos) ← parseTerm fuel tokens pos
        addLoop fuel tokens pos
          (.binaryOp left opTok.value.asStr right opTok.line opTok.column)
      else
        .ok (left, pos)

termination_by structural fuel _ _ _ => fuel

/-- `Parser.parse_term`: one unary, then the `*`/`/`/`%` loop
(left-associative multiplication, division, modulo). -/
def parseTerm : Nat → List Token → Nat → Except Err (Expr × Nat)
  | 0, _, _ => .error .fuelExhausted
  | fuel + 1, tokens, pos => do
      let (left, pos) ← parseUnary fuel tokens pos
      mulLoop fuel tokens pos left

termination_by structural fuel _ _ => fuel

/-- The `while current in (MULTIPLY, DIVIDE, MODULO)` loop of
`parse_term`. -/
def mulLoop : Nat → List Token → Nat → Expr → Except Err (Expr × Nat)
  | 0, _, _, _ => .error .fuelExhausted
  | fuel + 1, tokens, pos, left => do
      let cur ← getCur tokens pos
      if cur.type = .MULTIPLY ∨ cur.type = .DIVIDE ∨ cur.type = .MODULO then do
        let (opTok, pos) ← pAdvance tokens pos
        let (right, pos) ← parseUnary fuel tokens pos
        mulLoop fuel tokens pos
          (.binaryOp left opTok.value.asStr right opTok.line opTok.column)
      else
        .ok (left, pos)

termination_by structural fuel _ _ _ => fuel

/-- `Parser.parse_unary`: prefix `!` / `-` (right-recursive), else a
factor. -/
def parseUnary : Nat → List Token → Nat → Except Err (Expr × Nat)
  | 0, _, _ => .error .fuelExhausted
  | fuel + 1, tokens, pos => do
      let t ← getCur tokens pos
      if t.type = .NOT ∨ t.type = .MINUS then do
        let (opTok, pos) ← pAdvance tokens pos
        let (operand, pos) ← parseUnary fuel tokens pos
        .ok (.unaryOp opTok.value.asStr operand opTok.line opTok.column, pos)
      else
        parseFactor fuel tokens pos

termination_by structural fuel _ _ => fuel

/-- `Parser.parse_factor`: number, boolean, identifier (with optional
array-access or call suffix), array literal, or parenthesized
expression. -/
def parseFactor : Nat → List Token → Nat → Except Err (Expr × Nat)
  | 0, _, _ => .error .fuelExhausted
  | fuel + 1, tokens, pos => do
      let token ← getCur tokens pos
      if token.type = .NUMBER then do
        let (_, pos) ← pAdvance tokens pos
        .ok (.number token.value.asNat token.line token.column, pos)
      else if token.type = .TRUE then do
        let (_, pos) ← pAdvance tokens pos
        .ok (.boolean true token.line token.column, pos)
      else if token.type = .FALSE then do
        let (_, pos) ← pAdvance tokens pos
        .ok (.boolean false token.line token.column, pos)
      else if token.type = .IDENTIFIER then do
        let name := token.value.asStr
        let (_, pos) ← pAdvance tokens pos
        let cur ← getCur tokens pos
        if cur.type = .LBRACKET then do
          let (_, pos) ← pAdvance tokens pos
          let (index, pos) ← parseExpression fuel tokens pos
          let (_, pos) ← pExpect tokens pos .RBRACKET
          .ok (.arrayAccess (.identifier name token.line token.column) index
                token.line token.column, pos)
        else if cur.type = .LPAREN then do
          let (_, pos) ← pAdvance tokens pos
          let cur ← getCur tokens pos
          if cur.type ≠ .RPAREN then do
            let (first, pos) ← parseExpression fuel tokens pos
            let (args, pos) ← commaExprLoop fuel tokens pos [first]
            let (_, pos) ← pExpect tokens pos .RPAREN
            .ok (.functionCall name args token.line token.column, pos)
          else do
            let (_, pos) ← pExpect tokens pos .RPAREN
            .ok (.functionCall name [] token.line token.column, pos)
        else
          .ok (.identifier name token.line token.column, pos)
      else if token.type = .LBRACKET then do
        let (_, pos) ← pAdvance tokens pos
        let cur ← getCur tokens pos
        if cur.type ≠ .RBRACKET then do
          let (first, pos) ← parseExpression fuel tokens pos
          let (elems, pos) ← commaExprLoop fuel tokens pos [first]
          let (_, pos) ← pExpect tokens pos .RBRACKET
          .ok (.arrayLiteral elems token.line token.column, pos)
        else do
          let (_, pos) ← pExpect tokens pos .RBRACKET
          .ok (.arrayLiteral [] token.line token.column, pos)
      else if token.type = .LPAREN then do
        let (_, pos) ← pAdvance tokens pos
        let (expr, pos) ← parseExpression fuel tokens pos
        let (_, pos) ← pExpect tokens pos .RPAREN
        .ok (expr, pos)
      else
        .error (.parserError
          ("Unexpected token " ++ token.type.name ++ ", expected expression")
          token)

termination_by structural fuel _ _ => fuel

/-- The `while current is COMMA` loops collecting call arguments and
array-literal elements. -/
def commaExprLoop : Nat → List Token → Nat → List Expr →
    Except Err (List Expr × Nat)
  | 0, _, _, _ => .error .fuelExhausted
  | fuel + 1, tokens, pos, acc => do
      let cur ← getCur tokens pos
      if cur.type = .COMMA then do
        let (_, pos) ← pAdvance tokens pos
        let (e, pos) ← parseExpression fuel tokens pos
        commaExprLoop fuel tokens pos (acc ++ [e])
      else
        .ok (acc, pos)

termination_by structural fuel _ _ _ => fuel

end

/-- `Parser.parse_assignment` (parser.py lines 147–176).  In the indexed
branch the index expression is parsed and then **discarded** (the
`index` local is never used); the target is encoded as the literal
string `name + "[INDEX]"`, per the source's workaround comment. -/
def parseAssignment (fuel : Nat) (tokens : List Token) (pos : Nat) :
    Except Err (Stmt × Nat) := do
  let (idTok, pos) ← pExpect tokens pos .IDENTIFIER
  let name := idTok.value.asStr
  let cur ← getCur tokens pos
  if cur.type = .LBRACKET then do
    let (_, pos) ← pAdvance tokens pos
    let (_index, pos) ← parseExpression fuel tokens pos
    let (_, pos) ← pExpect tokens pos .RBRACKET
    let (_, pos) ← pExpect tokens pos .ASSIGN
    let (value, pos) ← parseExpression fuel tokens pos
    let (_, pos) ← pExpect tokens pos .SEMICOLON
    .ok (.assignment (name ++ "[INDEX]") value idTok.line idTok.column, pos)
  else do
    let (_, pos) ← pExpect tokens pos .ASSIGN
    let (value, pos) ← parseExpression fuel tokens pos
    let (_, pos) ← pExpect tokens pos .SEMICOLON
    .ok (.assignment name value idTok.line idTok.column, pos)

/-! ## Spec-side definition for the `for`-desugaring refinement claim -/

/-- The `for`-statement lowering exactly as the spec words it: the init
statement (if present) at the current indentation, then a `while` line
guarded by the rendered condition (a constant true guard if the
condition is absent), then the loop body at one deeper indentation,
followed immediately by the update statement (if present) inside the
loop's block.  Written from the spec, to be compared with the code
generator's `visit_for_statement`. -/
def forDesugarSpec (init : Option Stmt) (cond : Option Expr)
    (update : Option Stmt) (body : List Stmt) (level : Nat) : List String :=
  let initLines :=
    match init with
    | some i => genStmt i level
    | none => []
  let guard :=
    match cond with
    | some c => genExpr c
    | none => "True"
  let bodyLines := genStmtList body (level + 1)
  let updateLines :=
    match update with
    | some u => genStmt u (level + 1)
    | none => []
  initLines ++ [indentStr level ++ "while " ++ guard ++ ":"]
    ++ bodyLines ++ updateLines

/-! ## Theorems for the claims -/

/-- Reduction of the `Except` monad's bind on a success value. -/
theorem exceptBind_ok {ε α β : Type} (a : α) (f : α → Except ε β) :
    (Except.ok a >>= f) = f a := rfl

/-- Reduction of the `Except` monad's bind on an error value. -/
theorem exceptBind_error {ε α β : Type} (e : ε) (f : α → Except ε β) :
    ((Except.error e : Except ε α) >>= f) = .error e := rfl

/-- Reduction of the `Except` monad's pure. -/
theorem exceptPure {ε α : Type} (a : α) :
    (pure a : Except ε α) = .ok a := rfl

/-- Helper: analyzing an empty statement list leaves the table as it
is. -/
theorem anaStmtList_nil (st : SymTable) : anaStmtList [] st = .ok st := by
  rw [anaStmtList.eq_def]

/-- Helper: `visit_if_statement` raises the semantic error whenever the
condition's type is not `bool`. -/
theorem anaStmt_if_nonbool (cond : Expr) (tb : List Stmt)
    (eb : Option (List Stmt)) (l c : Nat) (st : SymTable) (t : String)
    (h : anaExpr cond st = .ok t) (ht : t ≠ "bool") :
    anaStmt (.ifStmt cond tb eb l c) st
      = .error (.semanticError ("If condition must be bool, got " ++ t) l c) := by
  rw [anaStmt.eq_def]
  simp only [h, exceptBind_ok]
  rw [if_pos ht]

/-- Helper: `visit_while_statement` raises the semantic error whenever
the condition's type is not `bool`. -/
theorem anaStmt_while_nonbool (cond : Expr) (body : List Stmt)
    (l c : Nat) (st : SymTable) (t : String)
    (h : anaExpr cond st = .ok t) (ht : t ≠ "bool") :
    anaStmt (.whileStmt cond body l c) st
      = .error (.semanticError
          ("While condition must be bool, got " ++ t) l c) := by
  rw [anaStmt.eq_def]
  simp only [h, exceptBind_ok]
  rw [if_pos ht]

/-- Helper: `visit_for_statement` accepts a condition of any type as
long as its own checking succeeds (here with no init, update or body). -/
theorem anaStmt_for_cond_any_type (cond : Expr) (l c : Nat)
    (st : SymTable) (t : String) (h : anaExpr cond st = .ok t) :
    anaStmt (.forStmt none (some cond) none [] l c) st = .ok st := by
  rw [anaStmt.eq_def]
  simp only [h, exceptBind_ok, exceptPure, anaStmtList_nil]

/-- Claim C1: the claim asserts `TokenType` defines a member for every
documented keyword (in particular `FOR`, `FUNCTION`, `RETURN`) and the
AST module defines every listed variant (in particular `ForStatement`,
`FunctionDeclaration`, `ReturnStatement`, `ArrayLiteral`, `ArrayAccess`,
`FunctionCall`), so that the lexer's keyword table and the parser's
imports resolve.  In the shipped files this fails: the lexer's keyword
table targets and the parser's imports include names that `token.py`
and `ast_nodes.py` do not define. -/
theorem c1_keyword_members_and_ast_imports_do_not_resolve :
    ("for", "FOR") ∈ lexerKeywords ∧ ("function", "FUNCTION") ∈ lexerKeywords
    ∧ ("return", "RETURN") ∈ lexerKeywords
    ∧ "FOR" ∉ tokenTypeMembers ∧ "FUNCTION" ∉ tokenTypeMembers
    ∧ "RETURN" ∉ tokenTypeMembers
    ∧ "ForStatement" ∈ parserAstImports
    ∧ "FunctionDeclaration" ∈ parserAstImports
    ∧ "ReturnStatement" ∈ parserAstImports
    ∧ "ArrayLiteral" ∈ parserAstImports
    ∧ "ArrayAccess" ∈ parserAstImports
    ∧ "FunctionCall" ∈ parserAstImports
    ∧ "ForStatement" ∉ astNodeClasses
    ∧ "FunctionDeclaration" ∉ astNodeClasses
    ∧ "ReturnStatement" ∉ astNodeClasses
    ∧ "ArrayLiteral" ∉ astNodeClasses
    ∧ "ArrayAccess" ∉ astNodeClasses
    ∧ "FunctionCall" ∉ astNodeClasses := by
  decide

/-- Claim C2: the claim asserts analysis of a program containing an
assignment fails, if at all, only with a `SemanticError`.  In the code,
analyzing the (semantically valid) program `int x = 1; x = 2;` raises a
Python `AttributeError` — `visit_assignment` reads `node.index` and the
shipped `Assignment` dataclass has no `index` field — which is not one
of the three documented error kinds. -/
theorem c2_assignment_analysis_raises_attribute_error :
    analyze ⟨[.declaration "int" "x" (.number 1 1 9) 1 1,
              .assignment "x" (.number 2 2 5) 2 1]⟩
      = .error (.attributeError "Assignment object has no attribute index")
    ∧ (Err.attributeError
        "Assignment object has no attribute index").isSemanticError = false := by
  exact ⟨rfl, rfl⟩

/-- Claim C3: the claim asserts the index expression of an indexed
assignment is preserved through the AST and rendered inside the brackets
of the emitted target.  In the code, parsing `arr[5] = 7;` discards the
parsed index expression, stores the literal target string `arr[INDEX]`,
and the generator emits `arr[INDEX] = 7` — not `arr[5] = 7`. -/
theorem c3_indexed_assignment_index_discarded :
    parseAssignment 32
      [⟨.IDENTIFIER, .str "arr", 1, 1⟩, ⟨.LBRACKET, .str "[", 1, 4⟩,
       ⟨.NUMBER, .int 5, 1, 5⟩, ⟨.RBRACKET, .str "]", 1, 6⟩,
       ⟨.ASSIGN, .str "=", 1, 8⟩, ⟨.NUMBER, .int 7, 1, 10⟩,
       ⟨.SEMICOLON, .str ";", 1, 11⟩, ⟨.EOF, .none, 1, 12⟩] 0
      = .ok (.assignment "arr[INDEX]" (.number 7 1 10) 1 1, 7)
    ∧ genStmt (.assignment "arr[INDEX]" (.number 7 1 10) 1 1) 0
      = ["arr[INDEX] = 7"]
    ∧ ("arr[INDEX] = 7" : String) ≠ "arr[5] = 7" := by
  exact ⟨rfl, rfl, by decide⟩

/-- Claim C4: the analyzer raises a `SemanticError` for every `if` and
every `while` whose condition types as anything other than `bool`, but
a `for` statement's present condition is only checked for
well-formedness, never required to be boolean: the int condition in
`for (;1;) {}` passes while the same condition in `if (1) {}` is
rejected. -/
theorem c4_if_while_bool_condition_for_condition_unrestricted :
    (∀ (cond : Expr) (tb : List Stmt) (eb : Option (List Stmt))
        (l c : Nat) (st : SymTable) (t : String),
      anaExpr cond st = .ok t → t ≠ "bool" →
      anaStmt (.ifStmt cond tb eb l c) st
        = .error (.semanticError ("If condition must be bool, got " ++ t) l c))
    ∧ (∀ (cond : Expr) (body : List Stmt) (l c : Nat)
        (st : SymTable) (t : String),
      anaExpr cond st = .ok t → t ≠ "bool" →
      anaStmt (.whileStmt cond body l c) st
        = .error (.semanticError
            ("While condition must be bool, got " ++ t) l c))
    ∧ (∀ (cond : Expr) (l c : Nat) (st : SymTable) (t : String),
      anaExpr cond st = .ok t →
      anaStmt (.forStmt none (some cond) none [] l c) st = .ok st)
    ∧ analyze ⟨[.forStmt none (some (.number 1 1 6)) none [] 1 1]⟩ = .ok []
    ∧ analyze ⟨[.ifStmt (.number 1 1 5) [] none 1 1]⟩
        = .error (.semanticError "If condition must be bool, got int" 1 1) := by
  exact ⟨anaStmt_if_nonbool, anaStmt_while_nonbool,
    anaStmt_for_cond_any_type, rfl, rfl⟩

/-- Witness for C4 at concrete inputs: `if (1) {}` is rejected with the
semantic error while `for (;1;) {}` is accepted. -/
theorem c4_if_while_bool_condition_for_condition_unrestricted_witness :
    anaStmt (.ifStmt (.number 1 1 5) [] none 1 1) []
      = .error (.semanticError "If condition must be bool, got int" 1 1)
    ∧ anaStmt (.forStmt none (some (.number 1 3 6)) none [] 3 1)
        [("x", "int")] = .ok [("x", "int")] :=
  ⟨c4_if_while_bool_condition_for_condition_unrestricted.1
      (.number 1 1 5) [] none 1 1 [] "int" rfl (by decide),
   c4_if_while_bool_condition_for_condition_unrestricted.2.2.1
      (.number 1 3 6) 3 1 [("x", "int")] "int" rfl⟩

/-- Claim C5 (amended): after a successfully analyzed function
declaration the symbol table is the snapshot taken right after the
function's own name was declared — the pre-declaration table *plus* the
function's binding; parameter bindings and body-local declarations do
not survive.  (The claim as stated — restored exactly to the
pre-declaration state — fails because the function's own binding
persists.) -/
theorem c5_function_declaration_restores_snapshot :
    ∀ (name : String) (params : List (String × String)) (rt : String)
      (body : List Stmt) (l c : Nat) (st st2 : SymTable),
      anaStmt (.functionDecl name params rt body l c) st = .ok st2 →
      st2 = st ++ [(name, rt)] := by
  intro name params rt body l c st st2 h
  rw [anaStmt.eq_def] at h
  simp only [SymTable.declare] at h
  by_cases hn : st.hasName name = true
  · rw [if_pos hn, exceptBind_error] at h
    exact absurd h (by simp)
  · rw [if_neg hn] at h
    simp only [exceptBind_ok] at h
    cases hb : anaStmtList body ((st ++ [(name, rt)]).bindParams params) with
    | error e => rw [hb, exceptBind_error] at h; exact absurd h (by simp)
    | ok st3 => rw [hb, exceptBind_ok] at h; exact (Except.ok.inj h).symm

/-- Counterexample to C5 as stated: analyzing `function f() {}` from the
empty table leaves the table holding the binding of `f`, so the
pre-declaration (empty) table is not restored. -/
theorem c5_function_binding_survives_counterexample :
    anaStmt (.functionDecl "f" [] "int" [] 1 1) [] = .ok [("f", "int")]
    ∧ ([("f", "int")] : SymTable) ≠ [] :=
  ⟨rfl, by decide⟩

/-- Witness for the amended C5: a function with a parameter shadowing a
global and a body-local declaration; afterwards the table is exactly the
pre-declaration table plus the function's binding. -/
theorem c5_function_declaration_restores_snapshot_witness :
    anaStmt (.functionDecl "g" [("int", "x")] "int"
        [.declaration "int" "y" (.number 1 2 13) 2 5] 1 1) [("x", "bool")]
      = .ok [("x", "bool"), ("g", "int")]
    ∧ ([("x", "bool"), ("g", "int")] : SymTable)
        = [("x", "bool")] ++ [("g", "int")] :=
  ⟨rfl,
   c5_function_declaration_restores_snapshot "g" [("int", "x")] "int"
     [.declaration "int" "y" (.number 1 2 13) 2 5] 1 1 [("x", "bool")]
     [("x", "bool"), ("g", "int")] rfl⟩

/-- Claim C6: `2 + 3 * 4` parses with `*` binding tighter than `+`, and
`20 - 10 - 5` parses as the left fold `(20 - 10) - 5`. -/
theorem c6_precedence_and_left_associativity :
    parseExpression 32
      [⟨.NUMBER, .int 2, 1, 1⟩, ⟨.PLUS, .str "+", 1, 3⟩,
       ⟨.NUMBER, .int 3, 1, 5⟩, ⟨.MULTIPLY, .str "*", 1, 7⟩,
       ⟨.NUMBER, .int 4, 1, 9⟩, ⟨.EOF, .none, 1, 10⟩] 0
      = .ok (.binaryOp (.number 2 1 1) "+"
              (.binaryOp (.number 3 1 5) "*" (.number 4 1 9) 1 7) 1 3, 5)
    ∧ parseExpression 32
      [⟨.NUMBER, .int 20, 1, 1⟩, ⟨.MINUS, .str "-", 1, 4⟩,
       ⟨.NUMBER, .int 10, 1, 6⟩, ⟨.MINUS, .str "-", 1, 9⟩,
       ⟨.NUMBER, .int 5, 1, 11⟩, ⟨.EOF, .none, 1, 12⟩] 0
      = .ok (.binaryOp
              (.binaryOp (.number 20 1 1) "-" (.number 10 1 6) 1 4) "-"
              (.number 5 1 11) 1 9, 5) :=
  ⟨rfl, rfl⟩

/-- Claim C7: the code generator's `for` lowering equals the spec's
desugaring for every `ForStatement`: init (if present) at the current
indentation, a `while` line guarded by the rendered condition or the
constant `True` guard, the body one level deeper, and the update (if
present) as the last statement inside the loop block. -/
theorem c7_for_desugaring_matches_spec :
    ∀ (init : Option Stmt) (cond : Option Expr) (update : Option Stmt)
      (body : List Stmt) (l c level : Nat),
      genStmt (.forStmt init cond update body l c) level
        = forDesugarSpec init cond update body level := by
  intro init cond update body l c level
  cases init <;> cases cond <;> cases update <;> rfl

/-- Claim C8: division renders as the floor-dividing `//`, the logical
operators render as the boolean keywords `and` / `or` / `not`, and
every unary and binary rendering is enclosed in its own parentheses. -/
theorem c8_operator_rendering_and_parenthesization :
    (∀ (l : Expr) (op : String) (r : Expr) (line col : Nat),
      genExpr (.binaryOp l op r line col)
        = "(" ++ genExpr l ++ " " ++ binOpMap op ++ " " ++ genExpr r ++ ")")
    ∧ binOpMap "/" = "//" ∧ binOpMap "&&" = "and" ∧ binOpMap "||" = "or"
    ∧ (∀ (op : String) (e : Expr) (line col : Nat),
      genExpr (.unaryOp op e line col)
        = "(" ++ unOpMap op ++ " " ++ genExpr e ++ ")")
    ∧ unOpMap "!" = "not"
    ∧ genExpr (.binaryOp (.number 15 1 1) "/" (.number 2 1 6) 1 4)
        = "(15 // 2)"
    ∧ genExpr (.unaryOp "!" (.identifier "x" 1 2) 1 1) = "(not x)" :=
  ⟨fun _ _ _ _ _ => rfl, rfl, rfl, rfl, fun _ _ _ _ => rfl, rfl, rfl, rfl⟩

/-- Claim C9: on a non-empty token list ending in EOF the cursor
primitives are total — `current_token` and `peek_token` always return a
token (the last, EOF, token when the requested position runs past the
end) and `advance` never moves the cursor past the final token. -/
theorem c9_cursor_primitives_total :
    ∀ (tokens : List Token) (hne : tokens ≠ [])
      (heof : (tokens.getLast hne).type = .EOF) (pos : Nat),
      (∃ t, currentTokenAt tokens pos = some t)
      ∧ (tokens.length ≤ pos →
          currentTokenAt tokens pos = some (tokens.getLast hne)
          ∧ (tokens.getLast hne).type = .EOF)
      ∧ (∀ off, ∃ t, peekTokenAt tokens pos off = some t)
      ∧ (∀ off, tokens.length ≤ pos + off →
          peekTokenAt tokens pos off = some (tokens.getLast hne))
      ∧ (pos ≤ tokens.length - 1 →
          advancePos tokens pos ≤ tokens.length - 1) := by
  intro tokens hne heof pos
  have hlast : tokens.getLast? = some (tokens.getLast hne) :=
    List.getLast?_eq_getLast tokens hne
  refine ⟨?_, ?_, ?_, ?_, ?_⟩
  · by_cases hp : tokens.length ≤ pos
    · exact ⟨tokens.getLast hne, by simp [currentTokenAt, hp, hlast]⟩
    · push_neg at hp
      exact ⟨tokens.get ⟨pos, hp⟩, by
        simp [currentTokenAt, Nat.not_le.mpr hp, List.getElem?_eq_getElem hp]⟩
  · intro hp
    exact ⟨by simp [currentTokenAt, hp, hlast], heof⟩
  · intro off
    by_cases hp : tokens.length ≤ pos + off
    · exact ⟨tokens.getLast hne, by simp [peekTokenAt, hp, hlast]⟩
    · push_neg at hp
      exact ⟨tokens.get ⟨pos + off, hp⟩, by
        simp [peekTokenAt, Nat.not_le.mpr hp, List.getElem?_eq_getElem hp]⟩
  · intro off hp
    simp [peekTokenAt, hp, hlast]
  · intro hp
    unfold advancePos
    split <;> omega

/-- Witness for C9 at a concrete token list and an out-of-range cursor:
the single-EOF token list at position 5. -/
theorem c9_cursor_primitives_total_witness :
    currentTokenAt [⟨.EOF, .none, 1, 1⟩] 5 = some ⟨.EOF, .none, 1, 1⟩
    ∧ (⟨.EOF, .none, 1, 1⟩ : Token).type = .EOF :=
  (c9_cursor_primitives_total [⟨.EOF, .none, 1, 1⟩]
    (List.cons_ne_nil _ _) rfl 5).2.1 (by decide)

/-- Claim C10: the code generator is total — it never raises — and on a
node of an unknown kind the statement visitor emits no line while the
expression visitor renders the empty string; generation also succeeds on
an AST that semantic analysis rejects (here `if (1) {}`). -/
theorem c10_generate_total_unknown_nodes_silent :
    (∀ level, genStmt .otherNode level = [])
    ∧ genExpr .otherNode = ""
    ∧ generate ⟨[.ifStmt (.number 1 1 4) [] none 1 1]⟩ = "if 1:"
    ∧ analyze ⟨[.ifStmt (.number 1 1 4) [] none 1 1]⟩
        = .error (.semanticError "If condition must be bool, got int" 1 1) :=
  ⟨fun _ => rfl, rfl, rfl, rfl⟩

end SimpleLang
